import Mathlib

/-!
Shallow embedding of the queue-manager core of YTMusic-DL
(src/queue_manager.py, src/config.py, src/settings.py).

Modelling conventions:
- Python float `progress` is modelled as ℚ (the spec only speaks about
  exact percentages such as 0, 40, 100).
- `datetime.now()` is modelled by an explicit `now : Nat` argument to the
  operations that read the clock; `added_at`/`started_at`/`completed_at`
  hold such ticks.
- Observer callbacks are opaque tokens (`Nat`); an operation that calls
  `_notify_callbacks` returns the list of callbacks it invoked
  (`_notify_callbacks` iterates the whole registered list, catching
  exceptions, so the invoked list is always the registered list).
- `_current_tasks` is an association list from item id to the
  `cancelled` flag of the task record.
- File I/O of export/import (settings.export_queue / settings.import_queue)
  is abstracted to the serialized list of records itself: a JSON round
  trip of these records is the identity.
- `uuid.uuid4()` default factories are modelled by explicit parameters
  (`fresh : Nat → String` giving the fresh id for the k-th record).
-/

namespace YTMusicDL

/-- Status constants, from config.DownloadStatus (string constants in the
source; all eight are pairwise distinct strings, so an inductive type is
a faithful model). -/
inductive DownloadStatus where
  | waiting
  | processing
  | downloading
  | converting
  | done
  | error
  | cancelled
  | retrying
deriving DecidableEq, Repr

/-- QueueItem dataclass from src/queue_manager.py (field defaults as in
the source; `added_at` default is the creation tick, supplied by the
caller where it matters). -/
structure QueueItem where
  id : String := ""
  video_id : String := ""
  title : String := ""
  channel : String := ""
  url : String := ""
  thumbnail : String := ""
  quality : String := "best_opus"
  status : DownloadStatus := DownloadStatus.waiting
  progress : ℚ := 0
  speed : String := ""
  eta : String := ""
  error_message : String := ""
  file_path : String := ""
  file_size : String := ""
  added_at : Nat := 0
  started_at : Option Nat := none
  completed_at : Option Nat := none
  retry_count : Nat := 0
  max_retries : Nat := 3
  is_short : Bool := false
deriving DecidableEq, Repr

/-- Mutable state of QueueManager: the ordered queue, the registered
callbacks (opaque tokens), and the `_current_tasks` map (id to the
`cancelled` flag of the tracked task). -/
structure QueueManager where
  queue : List QueueItem := []
  callbacks : List Nat := []
  current_tasks : List (String × Bool) := []
deriving DecidableEq, Repr

/-- Update the first element satisfying `p` (models the Python pattern
`for item in queue: if cond(item): mutate(item); break`). -/
def updateFirst (p : α → Bool) (f : α → α) : List α → List α
  | [] => []
  | x :: xs => if p x then f x :: xs else x :: updateFirst p f xs

/-- QueueManager._notify_callbacks: invokes every registered callback
(exceptions are caught and logged, so all of them run). -/
def notify_callbacks (m : QueueManager) : List Nat :=
  m.callbacks

/-- QueueManager.update_item_progress: overwrites the progress of the
first item with the given id, and overwrites speed / eta only when the
given strings are non-empty (Python truthiness of `if speed:` /
`if eta:`); always notifies afterwards. -/
def update_item_progress (m : QueueManager) (item_id : String) (progress : ℚ)
    (speed : String := "") (eta : String := "") : QueueManager × List Nat :=
  let f : QueueItem → QueueItem := fun it =>
    { it with progress := progress,
              speed := if speed = "" then it.speed else speed,
              eta := if eta = "" then it.eta else eta }
  let q := updateFirst (fun it => it.id == item_id) f m.queue
  ({ m with queue := q }, notify_callbacks m)

/-- QueueManager.update_item_status: sets the status of the first item
with the given id, stores the message when non-empty, stamps
`started_at` on a transition to Downloading with no prior start, else
stamps `completed_at` on Done / Error / Cancelled; always notifies. -/
def update_item_status (m : QueueManager) (item_id : String)
    (status : DownloadStatus) (error_msg : String := "") (now : Nat := 0) :
    QueueManager × List Nat :=
  let f : QueueItem → QueueItem := fun it =>
    let it1 := { it with status := status,
                         error_message := if error_msg = "" then it.error_message else error_msg }
    if status = DownloadStatus.downloading ∧ it.started_at = none then
      { it1 with started_at := some now }
    else if status = DownloadStatus.done ∨ status = DownloadStatus.error
            ∨ status = DownloadStatus.cancelled then
      { it1 with completed_at := some now }
    else it1
  let q := updateFirst (fun it => it.id == item_id) f m.queue
  ({ m with queue := q }, notify_callbacks m)

/-- Statuses for which cancel_download applies. -/
def cancellableB (s : DownloadStatus) : Bool :=
  s == DownloadStatus.downloading || s == DownloadStatus.processing

/-- QueueManager.cancel_download: scans for an item with the given id
whose status is Downloading or Processing; on a hit sets its status to
Cancelled, sets the `cancelled` flag of its `_current_tasks` entry when
one is tracked, notifies, and returns true; otherwise no change and
false. -/
def cancel_download (m : QueueManager) (item_id : String) : QueueManager × Bool :=
  let found := m.queue.any (fun it => it.id == item_id && cancellableB it.status)
  let q := updateFirst (fun it => it.id == item_id && cancellableB it.status)
    (fun it => { it with status := DownloadStatus.cancelled }) m.queue
  let tasks := if found then
      m.current_tasks.map (fun p => if p.1 == item_id then (p.1, true) else p)
    else m.current_tasks
  ({ m with queue := q, current_tasks := tasks }, found)

/-- Statuses cancelled by cancel_all. -/
def activeOrWaitingB (s : DownloadStatus) : Bool :=
  s == DownloadStatus.downloading || s == DownloadStatus.processing
    || s == DownloadStatus.waiting

/-- QueueManager.cancel_all: every Downloading / Processing / Waiting
item becomes Cancelled and its tracked task (if any) is flagged
cancelled; notifies once. -/
def cancel_all (m : QueueManager) : QueueManager × List Nat :=
  let q := m.queue.map (fun it =>
    if activeOrWaitingB it.status then { it with status := DownloadStatus.cancelled } else it)
  let tasks := m.current_tasks.map (fun p =>
    if m.queue.any (fun it => it.id == p.1 && activeOrWaitingB it.status) then (p.1, true)
    else p)
  ({ m with queue := q, current_tasks := tasks }, notify_callbacks m)

/-- QueueManager.retry_item: scans for an item with the given id and
status Error; on a hit resets it to Waiting, progress 0, clears the
message, increments the retry counter, notifies and returns true;
otherwise no change and false. -/
def retry_item (m : QueueManager) (item_id : String) : QueueManager × Bool :=
  let found := m.queue.any (fun it => it.id == item_id && it.status == DownloadStatus.error)
  let f : QueueItem → QueueItem := fun it =>
    { it with status := DownloadStatus.waiting, progress := 0,
              error_message := "", retry_count := it.retry_count + 1 }
  let q := updateFirst (fun it => it.id == item_id && it.status == DownloadStatus.error) f m.queue
  ({ m with queue := q }, found)

/-- QueueManager.is_cancelled: `self._current_tasks.get(item_id, {})`
followed by `.get(cancelled, False)`. -/
def is_cancelled (m : QueueManager) (item_id : String) : Bool :=
  ((m.current_tasks.lookup item_id).getD false)

/-- Loop body of QueueManager.remove_item. The manager lock
(`threading.Lock`, non-reentrant) is already held by remove_item when the
loop runs; on the first id match with status Downloading the code calls
cancel_download, which tries to acquire the same lock again and blocks
forever. That permanently blocked execution is modelled as `none`. -/
def removeLoop (item_id : String) : List QueueItem → Option (List QueueItem × Bool)
  | [] => some ([], false)
  | it :: rest =>
    if it.id == item_id then
      if it.status = DownloadStatus.downloading then none
      else some (rest, true)
    else
      match removeLoop item_id rest with
      | none => none
      | some (q, b) => some (it :: q, b)

/-- QueueManager.remove_item: pops the first item with the given id and
returns true, or returns false when the id is absent; `none` models the
deadlock the source runs into when the matched item is Downloading (see
removeLoop). -/
def remove_item (m : QueueManager) (item_id : String) : Option (QueueManager × Bool) :=
  match removeLoop item_id m.queue with
  | none => none
  | some (q, b) => some ({ m with queue := q }, b)

/-- Terminal statuses as used by the global-progress active filter. -/
def terminalB (s : DownloadStatus) : Bool :=
  s == DownloadStatus.done || s == DownloadStatus.error || s == DownloadStatus.cancelled

/-- Accumulator step of the loop in QueueManager.get_global_progress:
(total_progress, completed, failed). -/
def gpStep (a : ℚ × Nat × Nat) (it : QueueItem) : ℚ × Nat × Nat :=
  if it.status = DownloadStatus.done then (a.1 + 100, a.2.1 + 1, a.2.2)
  else if it.status = DownloadStatus.error then (a.1, a.2.1, a.2.2 + 1)
  else if it.status ≠ DownloadStatus.cancelled then (a.1 + it.progress, a.2.1, a.2.2)
  else a

/-- QueueManager.get_global_progress: empty queue gives (0,0,0);
otherwise one pass accumulates total progress (Done counts 100, Error
and Cancelled count 0) plus the Done and Error counters, and the
percentage is total / len(queue) unless no non-terminal item remains, in
which case it is forced to 100. -/
def get_global_progress (m : QueueManager) : ℚ × Nat × Nat :=
  if m.queue = [] then (0, 0, 0)
  else
    let acc := m.queue.foldl gpStep (0, 0, 0)
    let active := m.queue.filter (fun it => !terminalB it.status)
    (if active ≠ [] then acc.1 / (m.queue.length : ℚ) else 100, acc.2.1, acc.2.2)

/-- Dictionary produced by QueueItem.to_dict and consumed by
QueueItem.from_dict. Each key may be absent in a hand-written file, so
every field is an Option; to_dict always writes all eight keys. -/
structure ExportRecord where
  id? : Option String := none
  video_id? : Option String := none
  title? : Option String := none
  channel? : Option String := none
  url? : Option String := none
  thumbnail? : Option String := none
  quality? : Option String := none
  is_short? : Option Bool := none
deriving DecidableEq, Repr

/-- QueueItem.to_dict: serializes id, the source descriptor, quality and
the is_short flag (and nothing else). -/
def QueueItem.to_dict (it : QueueItem) : ExportRecord :=
  { id? := some it.id, video_id? := some it.video_id, title? := some it.title,
    channel? := some it.channel, url? := some it.url, thumbnail? := some it.thumbnail,
    quality? := some it.quality, is_short? := some it.is_short }

/-- QueueItem.from_dict: builds a default item (`cls()`), then overwrites
the eight serialized fields from the dictionary with the `.get` defaults
of the source; `fresh_id` models the `str(uuid.uuid4())` fallback used
only when the id key is absent, `now` the `datetime.now()` creation
tick of `cls()`. All other fields keep their dataclass defaults. -/
def QueueItem.from_dict (fresh_id : String) (now : Nat) (r : ExportRecord) : QueueItem :=
  { id := r.id?.getD fresh_id,
    video_id := r.video_id?.getD "",
    title := r.title?.getD "",
    channel := r.channel?.getD "",
    url := r.url?.getD "",
    thumbnail := r.thumbnail?.getD "",
    quality := r.quality?.getD "best_opus",
    is_short := r.is_short?.getD false,
    added_at := now }

/-- Recoverable statuses serialized by export_queue. -/
def recoverableB (s : DownloadStatus) : Bool :=
  s == DownloadStatus.waiting || s == DownloadStatus.error

/-- QueueManager.export_queue: the list of records handed to
settings.export_queue — exactly the Waiting and Error items, serialized
by to_dict. The JSON file round trip is the identity on this list. -/
def export_queue (m : QueueManager) : List ExportRecord :=
  (m.queue.filter (fun it => recoverableB it.status)).map QueueItem.to_dict

/-- Body of the import list comprehension plus the per-item reset loop
of QueueManager.import_queue: the k-th record becomes a QueueItem via
from_dict (receiving the fresh id `fresh k` for its uuid fallback) and
is then forced to status Waiting and progress 0. -/
def import_items (fresh : Nat → String) (now : Nat) (k : Nat) :
    List ExportRecord → List QueueItem
  | [] => []
  | r :: rs =>
    (let it := QueueItem.from_dict (fresh k) now r
     { it with status := DownloadStatus.waiting, progress := 0 })
      :: import_items fresh now (k + 1) rs

/-- QueueManager.import_queue applied to the record list read back from
the file: when the list is non-empty the imported items are appended to
the queue (add_items) and their number is returned, otherwise 0. -/
def import_queue (m : QueueManager) (records : List ExportRecord)
    (fresh : Nat → String) (now : Nat) : QueueManager × Nat :=
  if records.isEmpty then (m, 0)
  else
    let queue_items := import_items fresh now 0 records
    ({ m with queue := m.queue ++ queue_items }, queue_items.length)

/-- The `max_concurrent_downloads` entry of the SettingsManager store
(`none` models an absent key). -/
def max_concurrent_downloads_get (store : Option Int) : Int :=
  store.getD 3

/-- Property setter SettingsManager.max_concurrent_downloads: clamps to
[1,5] before storing. -/
def max_concurrent_downloads_set (value : Int) : Option Int :=
  some (max 1 (min 5 value))

/-- SettingsManager.set / SettingsManager.update / load_settings write
the raw value into the store without clamping. -/
def settings_set_raw (value : Int) : Option Int :=
  some value

/-- QueueManager.get_active_downloads: number of Downloading or
Processing items. -/
def get_active_downloads (m : QueueManager) : Nat :=
  (m.queue.filter (fun it => cancellableB it.status)).length

/-- QueueManager.can_start_download: active downloads strictly below the
configured limit. -/
def can_start_download (store : Option Int) (m : QueueManager) : Bool :=
  (get_active_downloads m : Int) < max_concurrent_downloads_get store

/-! Concrete items used by the settled claims. -/

/-- A fresh Waiting item. -/
def itemA : QueueItem := { id := "a" }

/-- A Downloading item at 50 percent. -/
def dlItem : QueueItem := { id := "d1", status := DownloadStatus.downloading, progress := 50 }

/-- A Downloading item at 40 percent. -/
def dl40 : QueueItem := { id := "d2", status := DownloadStatus.downloading, progress := 40 }

/-- A Done item. -/
def doneItem : QueueItem := { id := "d0", status := DownloadStatus.done }

/-- An Error item whose last known progress was 40. -/
def errItem40 : QueueItem := { id := "e1", status := DownloadStatus.error, progress := 40 }

/-! Helper lemmas about updateFirst. -/

lemma updateFirst_of_forall_false {p : α → Bool} {f : α → α} {l : List α}
    (h : ∀ x ∈ l, p x = false) : updateFirst p f l = l := by
  induction l with
  | nil => rfl
  | cons x xs ih =>
    have hx := h x (by simp)
    simp [updateFirst, hx, ih (fun y hy => h y (by simp [hy]))]

lemma updateFirst_append {p : α → Bool} {f : α → α} {pre post : List α} {item : α}
    (hpre : ∀ x ∈ pre, p x = false) (hit : p item = true) :
    updateFirst p f (pre ++ item :: post) = pre ++ f item :: post := by
  induction pre with
  | nil => simp [updateFirst, hit]
  | cons x xs ih =>
    have hx := hpre x (by simp)
    simp [updateFirst, hx, ih (fun y hy => hpre y (by simp [hy]))]

lemma map_updateFirst {p : α → Bool} {f : α → α} {g : α → β} {l : List α}
    (h : ∀ x, g (f x) = g x) : (updateFirst p f l).map g = l.map g := by
  induction l with
  | nil => rfl
  | cons x xs ih =>
    by_cases hx : p x
    · simp [updateFirst, hx, h]
    · simp [updateFirst, hx, ih]

/-! Claim C1: global progress. -/

/-- Per-item contribution to the global percentage, as the code actually
computes it: Done counts 100, Error and Cancelled count 0, every other
status counts its current progress. -/
def contributionSpec (it : QueueItem) : ℚ :=
  if it.status = DownloadStatus.done then 100
  else if it.status = DownloadStatus.error then 0
  else if it.status = DownloadStatus.cancelled then 0
  else it.progress

/-- Independent statement of the corrected global-progress rule: empty
queue gives (0,0,0); a non-empty queue whose items are all terminal is
forced to percentage 100; otherwise the percentage is the contribution
sum divided by the total item count; the counters are the numbers of
Done and of Error items. -/
def globalProgressSpec (q : List QueueItem) : ℚ × Nat × Nat :=
  if q = [] then (0, 0, 0)
  else
    (if q.all (fun it => terminalB it.status) then 100
     else (q.map contributionSpec).sum / (q.length : ℚ),
     (q.filter (fun it => it.status == DownloadStatus.done)).length,
     (q.filter (fun it => it.status == DownloadStatus.error)).length)

lemma foldl_gpStep (l : List QueueItem) (a : ℚ × Nat × Nat) :
    l.foldl gpStep a =
      (a.1 + (l.map contributionSpec).sum,
       a.2.1 + (l.filter (fun it => it.status == DownloadStatus.done)).length,
       a.2.2 + (l.filter (fun it => it.status == DownloadStatus.error)).length) := by
  induction l generalizing a with
  | nil => simp
  | cons x xs ih =>
    simp only [List.foldl_cons, ih, List.map_cons, List.sum_cons, List.filter_cons]
    by_cases h1 : x.status = DownloadStatus.done
    · simp [gpStep, contributionSpec, h1, Prod.ext_iff, add_assoc, add_comm, add_left_comm]
    · by_cases h2 : x.status = DownloadStatus.error
      · simp [gpStep, contributionSpec, h1, h2, Prod.ext_iff, add_assoc, add_comm,
          add_left_comm]
      · by_cases h3 : x.status = DownloadStatus.cancelled
        · simp [gpStep, contributionSpec, h1, h2, h3, Prod.ext_iff]
        · simp [gpStep, contributionSpec, h1, h2, h3, Prod.ext_iff, add_assoc, add_comm,
            add_left_comm]

lemma active_filter_eq_nil_iff (q : List QueueItem) :
    (q.filter (fun it => !terminalB it.status) = []) ↔
      (q.all (fun it => terminalB it.status) = true) := by
  simp [List.filter_eq_nil_iff, List.all_eq_true]

/-- C1: the claimed global-progress rule (Error items contribute their
last known progress) is wrong on the code: with a queue holding exactly
one Error item whose last progress was 40, get_global_progress returns
(100, 0, 1), not the claimed (40, 0, 1) — once no non-terminal item
remains the percentage is forced to 100. -/
theorem C1_counterexample :
    get_global_progress { queue := [errItem40] } = (100, 0, 1) ∧
    ((100 : ℚ), (0 : Nat), (1 : Nat)) ≠ ((40 : ℚ), (0 : Nat), (1 : Nat)) := by
  decide

/-- C1 (amended): get_global_progress follows the rule: for the empty
queue (0,0,0); for a non-empty queue whose items are all terminal the
percentage is forced to 100; otherwise it is the sum of per-item
contributions (100 for Done, 0 for Error and for Cancelled, the current
progress for every other item) divided by the total item count, with
Cancelled items counted in the denominator; the two counters are the
Done and Error counts. In particular one Done item gives (100,1,0), the
empty queue (0,0,0), and one Error item with last progress 40 gives
(100,0,1). -/
theorem C1_global_progress :
    (∀ m : QueueManager, get_global_progress m = globalProgressSpec m.queue) ∧
    get_global_progress ({} : QueueManager) = (0, 0, 0) ∧
    get_global_progress { queue := [doneItem] } = (100, 1, 0) ∧
    get_global_progress { queue := [errItem40] } = (100, 0, 1) := by
  refine ⟨fun m => ?_, by decide, by decide, by decide⟩
  unfold get_global_progress globalProgressSpec
  by_cases hq : m.queue = []
  · simp [hq]
  · simp only [hq, if_neg, ite_false]
    rw [foldl_gpStep]
    by_cases hall : m.queue.all (fun it => terminalB it.status) = true
    · have hact : m.queue.filter (fun it => !terminalB it.status) = [] :=
        (active_filter_eq_nil_iff m.queue).mpr hall
      simp [hact, hall]
    · have hact : ¬(m.queue.filter (fun it => !terminalB it.status) = []) := by
        intro h
        exact hall ((active_filter_eq_nil_iff m.queue).mp h)
      simp [hact, hall]

/-- C1 witness: the general equation applied to a concrete mixed queue. -/
theorem C1_witness :
    get_global_progress { queue := [dlItem, errItem40] } =
      globalProgressSpec [dlItem, errItem40] :=
  C1_global_progress.1 { queue := [dlItem, errItem40] }

/-! Claim C2: export / import round trip. -/

/-- The queue item produced by importing the export record of `it`: the
source descriptor, quality and is_short are copied (including the
original id, which to_dict serializes and from_dict reads back), the
status is Waiting, the progress 0, and every remaining field has its
dataclass default. -/
def importedOf (now : Nat) (it : QueueItem) : QueueItem :=
  { id := it.id, video_id := it.video_id, title := it.title, channel := it.channel,
    url := it.url, thumbnail := it.thumbnail, quality := it.quality,
    is_short := it.is_short, status := DownloadStatus.waiting, progress := 0,
    added_at := now }

lemma import_items_map_to_dict (fresh : Nat → String) (now : Nat)
    (l : List QueueItem) (k : Nat) :
    import_items fresh now k (l.map QueueItem.to_dict) = l.map (importedOf now) := by
  induction l generalizing k with
  | nil => rfl
  | cons x xs ih =>
    simp only [List.map_cons, import_items, ih]
    rfl

/-- C2: the claim that imported items carry freshly generated ids
distinct from every id already in the queue is wrong on the code:
to_dict serializes the id and from_dict reads it back, so exporting a
queue holding the Waiting item with id a and importing the result into
the same queue yields two items that both carry id a. -/
theorem C2_counterexample :
    ((import_queue { queue := [itemA] } (export_queue { queue := [itemA] })
        (fun _ => "fresh-uuid") 0).1.queue.map QueueItem.id) = ["a", "a"] := by
  decide

/-- C2 (amended): export serializes exactly the Waiting and Error items
(id, source descriptor, quality, is_short), and importing the exported
records appends, per recoverable item in order, an item with status
Waiting, progress 0, the source descriptor, quality and is_short flag
preserved — and the id preserved from the file rather than freshly
generated (the uuid fallback is used only for records without an id
key); the returned count is the number of recoverable items. -/
theorem C2_export_import (m : QueueManager) (fresh : Nat → String) (now : Nat) :
    (import_queue m (export_queue m) fresh now).1.queue =
      m.queue ++ (m.queue.filter (fun it => recoverableB it.status)).map (importedOf now) ∧
    (import_queue m (export_queue m) fresh now).2 =
      (m.queue.filter (fun it => recoverableB it.status)).length := by
  unfold import_queue export_queue
  by_cases h : (m.queue.filter (fun it => recoverableB it.status)).map QueueItem.to_dict = []
  · have h0 : m.queue.filter (fun it => recoverableB it.status) = [] := by
      simpa using h
    simp [h, h0, List.isEmpty_iff]
  · have hne : ((m.queue.filter (fun it => recoverableB it.status)).map
        QueueItem.to_dict).isEmpty = false := by
      simp [List.isEmpty_iff, h]
    simp only [hne, Bool.false_eq_true, if_false, import_items_map_to_dict]
    constructor <;> simp

/-- C2 witness: the round-trip equation applied to a concrete queue
holding one Waiting, one Downloading and one Error item. -/
theorem C2_witness :
    (import_queue { queue := [itemA, dlItem, errItem40] }
        (export_queue { queue := [itemA, dlItem, errItem40] }) (fun _ => "u") 9).1.queue =
      [itemA, dlItem, errItem40] ++ [importedOf 9 itemA, importedOf 9 errItem40] := by
  have h := (C2_export_import { queue := [itemA, dlItem, errItem40] } (fun _ => "u") 9).1
  rw [h]
  decide

/-! Claim C3: remove_item. -/

/-- C3: for an id absent from the queue remove_item returns false and
leaves the queue unchanged, and for a present non-Downloading item it
removes the item and returns true; but for a Downloading item the
source deadlocks (modelled as none): remove_item still holds the
non-reentrant manager lock when it calls cancel_download, which blocks
acquiring the same lock, so the item is neither cancelled nor removed
and no value is ever returned. -/
theorem C3_remove_item_downloading_deadlock :
    remove_item { queue := [dlItem] } "d1" = none ∧
    remove_item { queue := [itemA] } "a" = some ({ queue := [] }, true) ∧
    remove_item { queue := [itemA] } "zz" = some ({ queue := [itemA] }, false) := by
  decide

/-! Claim C4: progress on Done. -/

/-- C4: the claim that setting an item to Done forces its progress to
100 is wrong on the code: update_item_status never touches the progress
field, so moving a Downloading item at 40 percent to Done leaves its
progress at 40, and a Done item with progress different from 100 is
reachable. -/
theorem C4_counterexample :
    ((update_item_status { queue := [dl40] } "d2" DownloadStatus.done "" 7).1.queue.map
      (fun it => (it.status, it.progress))) = [(DownloadStatus.done, 40)] ∧
    ((40 : ℚ) ≠ 100) := by
  decide

/-- C4 (amended): update_item_status leaves the progress of every item
unchanged, whatever status is written; in particular an item moved to
Done keeps its previous progress, so the invariant that every Done item
has progress 100 does not hold (Done items are merely counted as 100 by
get_global_progress). -/
theorem C4_update_status_preserves_progress (m : QueueManager) (item_id : String)
    (status : DownloadStatus) (msg : String) (now : Nat) :
    ((update_item_status m item_id status msg now).1.queue.map QueueItem.progress) =
      m.queue.map QueueItem.progress := by
  unfold update_item_status
  apply map_updateFirst
  intro x
  by_cases h1 : status = DownloadStatus.downloading ∧ x.started_at = none
  · simp [h1]
  · by_cases h2 : status = DownloadStatus.done ∨ status = DownloadStatus.error
        ∨ status = DownloadStatus.cancelled
    · simp [h1, h2]
    · simp [h1, h2]

/-! Claim C5: update_item_progress. -/

/-- C5: the claim that update_item_progress is monotonic and promotes
the status to Downloading is wrong on the code: it overwrites the
progress of a Downloading item at 50 percent with 30 (a decrease), and
a progress event on a Waiting item leaves the status Waiting. -/
theorem C5_counterexample :
    ((update_item_progress { queue := [dlItem] } "d1" 30 "" "").1.queue.map
      (fun it => (it.status, it.progress))) = [(DownloadStatus.downloading, 30)] ∧
    ¬((50 : ℚ) ≤ 30) ∧
    ((update_item_progress { queue := [itemA] } "a" 10 "" "").1.queue.map
      QueueItem.status) = [DownloadStatus.waiting] := by
  decide

/-- C5 (amended): update_item_progress overwrites the progress of the
first item with the given id with exactly the given value (it may
decrease), overwrites speed and eta only when the given strings are
non-empty, never changes any status, and notifies every registered
callback; the promotion to Downloading is performed separately by the
progress hook through update_item_status. -/
theorem C5_update_progress_overwrites (m : QueueManager) (item_id : String) (p : ℚ)
    (sp et : String) (pre post : List QueueItem) (item : QueueItem)
    (hq : m.queue = pre ++ item :: post)
    (hpre : ∀ x ∈ pre, (x.id == item_id) = false)
    (hit : (item.id == item_id) = true) :
    (update_item_progress m item_id p sp et).1.queue =
      pre ++ { item with progress := p,
                         speed := if sp = "" then item.speed else sp,
                         eta := if et = "" then item.eta else et } :: post ∧
    (update_item_progress m item_id p sp et).1.queue.map QueueItem.status =
      m.queue.map QueueItem.status ∧
    (update_item_progress m item_id p sp et).2 = m.callbacks := by
  refine ⟨?_, ?_, rfl⟩
  · unfold update_item_progress
    simp only [hq]
    exact updateFirst_append hpre hit
  · unfold update_item_progress
    apply map_updateFirst
    intro x
    rfl

/-- C5 witness: the overwrite equation applied to a queue holding one
Downloading item at 50 percent, written down to 30. -/
theorem C5_witness :
    (update_item_progress { queue := [dlItem] } "d1" 30 "" "").1.queue =
      [{ dlItem with progress := 30 }] := by
  have h := (C5_update_progress_overwrites { queue := [dlItem] } "d1" 30 "" ""
    [] [] dlItem rfl (by simp) (by decide)).1
  rw [h]
  decide

/-! Claim C6: timestamps on terminal transitions. -/

/-- C6: the claim that every entry into a terminal state sets
completed_at is wrong on the code for the cancel operations: cancelling
a Downloading item through cancel_download (and likewise cancel_all)
sets the status to Cancelled but leaves completed_at unset. -/
theorem C6_counterexample :
    ((cancel_download { queue := [dlItem] } "d1").1.queue.map
      (fun it => (it.status, it.completed_at))) = [(DownloadStatus.cancelled, none)] ∧
    ((cancel_all { queue := [dlItem] }).1.queue.map
      (fun it => (it.status, it.completed_at))) = [(DownloadStatus.cancelled, none)] := by
  decide

/-- C6 (amended): update_item_status stamps completed_at with the
current tick on entry into Done, Error or Cancelled, and stamps
started_at on a transition into Downloading when no start is recorded;
but the terminal states reached through cancel_download and cancel_all
leave every completed_at unchanged. -/
theorem C6_timestamps :
    (∀ (m : QueueManager) (item_id msg : String) (now : Nat)
        (pre post : List QueueItem) (item : QueueItem),
        m.queue = pre ++ item :: post →
        (∀ x ∈ pre, (x.id == item_id) = false) →
        (item.id == item_id) = true →
        ((∀ status : DownloadStatus,
            status = DownloadStatus.done ∨ status = DownloadStatus.error
              ∨ status = DownloadStatus.cancelled →
            (update_item_status m item_id status msg now).1.queue.map
                QueueItem.completed_at =
              pre.map QueueItem.completed_at
                ++ some now :: post.map QueueItem.completed_at) ∧
         (item.started_at = none →
            (update_item_status m item_id DownloadStatus.downloading msg now).1.queue.map
                QueueItem.started_at =
              pre.map QueueItem.started_at
                ++ some now :: post.map QueueItem.started_at))) ∧
    (∀ (m : QueueManager) (item_id : String),
        (cancel_download m item_id).1.queue.map QueueItem.completed_at =
          m.queue.map QueueItem.completed_at) ∧
    (∀ m : QueueManager,
        (cancel_all m).1.queue.map QueueItem.completed_at =
          m.queue.map QueueItem.completed_at) := by
  refine ⟨?_, ?_, ?_⟩
  · intro m item_id msg now pre post item hq hpre hit
    constructor
    · intro status hst
      have hnd : ¬(status = DownloadStatus.downloading ∧ item.started_at = none) := by
        rcases hst with h | h | h <;> simp [h]
      unfold update_item_status
      simp only [hq]
      rw [updateFirst_append hpre hit]
      simp [hnd, hst]
    · intro hstart
      unfold update_item_status
      simp only [hq]
      rw [updateFirst_append hpre hit]
      simp [hstart]
  · intro m item_id
    unfold cancel_download
    apply map_updateFirst
    intro x
    rfl
  · intro m
    unfold cancel_all
    simp only [List.map_map]
    apply List.map_congr_left
    intro x _
    by_cases hx : activeOrWaitingB x.status
    · simp [hx]
    · simp [hx]

/-- C6 witness: marking a Downloading item Done at tick 7 stamps its
completed_at with 7. -/
theorem C6_witness :
    (update_item_status { queue := [dlItem] } "d1" DownloadStatus.done "" 7).1.queue.map
      QueueItem.completed_at = [some 7] := by
  have h := ((C6_timestamps.1 { queue := [dlItem] } "d1" "" 7 [] [] dlItem rfl
    (by simp) (by decide)).1 DownloadStatus.done (Or.inl rfl))
  simpa using h

/-! Claim C7: concurrency limit. -/

/-- C7: the claim that the limit read from the configuration is always
within [1,5] is wrong on the code: only the property setter clamps;
SettingsManager.set, update and load_settings store raw values, and the
getter returns the stored value unclamped, so a stored 10 yields limit
10 and can_start_download stays true with five active downloads. -/
theorem C7_counterexample :
    max_concurrent_downloads_get (settings_set_raw 10) = 10 ∧
    ¬((10 : Int) ≤ 5) ∧
    can_start_download (settings_set_raw 10)
      { queue := List.replicate 5 dlItem } = true := by
  decide

/-- C7 (amended): can_start_download is true exactly when the number of
Downloading or Processing items is strictly below the configured limit;
the limit defaults to 3 when the key is absent, and the property setter
clamps written values to [1,5], but values stored through the raw
set / update / load paths are used unclamped. -/
theorem C7_can_start_download :
    (∀ (store : Option Int) (m : QueueManager),
        can_start_download store m = true ↔
          ((m.queue.filter (fun it => it.status == DownloadStatus.downloading
              || it.status == DownloadStatus.processing)).length : Int) <
            max_concurrent_downloads_get store) ∧
    max_concurrent_downloads_get none = 3 ∧
    (∀ value : Int,
        1 ≤ max_concurrent_downloads_get (max_concurrent_downloads_set value) ∧
        max_concurrent_downloads_get (max_concurrent_downloads_set value) ≤ 5) := by
  refine ⟨fun store m => ?_, rfl, fun value => ?_⟩
  · simp [can_start_download, get_active_downloads, cancellableB]
  · simp only [max_concurrent_downloads_get, max_concurrent_downloads_set, Option.getD_some]
    omega

/-- C7 witness: one Downloading item against the default limit 3. -/
theorem C7_witness :
    can_start_download none { queue := [dlItem] } = true :=
  (C7_can_start_download.1 none { queue := [dlItem] }).mpr (by decide)

/-! Claim C8: cancel_download. -/

/-- C8: the claim that the cancellation flag is raised whenever a
Downloading or Processing item is cancelled is wrong on the code: the
flag lives in the current-tasks map and is only set when that map
tracks the id, so cancelling a Downloading item with no tracked task
returns true and sets Cancelled while is_cancelled stays false. -/
theorem C8_counterexample :
    (cancel_download { queue := [dlItem] } "d1").2 = true ∧
    ((cancel_download { queue := [dlItem] } "d1").1.queue.map QueueItem.status) =
      [DownloadStatus.cancelled] ∧
    is_cancelled (cancel_download { queue := [dlItem] } "d1").1 "d1" = false := by
  decide

lemma lookup_map_setflag (l : List (String × Bool)) (item_id : String) :
    ((l.map (fun p => if p.1 == item_id then (p.1, true) else p)).lookup item_id) =
      (l.lookup item_id).map (fun _ => true) := by
  induction l with
  | nil => rfl
  | cons x xs ih =>
    rcases x with ⟨k, b⟩
    simp only [List.map_cons]
    by_cases hk : k = item_id
    · subst hk
      have hc : (k == k) = true := by
        simp
      rw [if_pos hc]
      simp [List.lookup, hc, ih]
    · have h1 : ¬((k == item_id) = true) := by
        simp [hk]
      have h2 : (item_id == k) = false := by
        simp [Ne.symm hk]
      rw [if_neg h1]
      simp only [List.lookup, h2]
      simpa using ih

/-- C8 (amended): cancel_download returns true exactly when an item
with the given id has status Downloading or Processing; when it returns
false the whole manager state is unchanged; after the call the
cancellation flag reads true exactly when either the call succeeded and
the id is tracked in the current-tasks map, or the flag was already
raised before; and on success the first matched qualifying item has its
status set to Cancelled with every other item untouched. -/
theorem C8_cancel_download_spec (m : QueueManager) (item_id : String) :
    ((cancel_download m item_id).2 = true ↔
        ∃ it ∈ m.queue, it.id = item_id ∧
          (it.status = DownloadStatus.downloading
            ∨ it.status = DownloadStatus.processing)) ∧
    ((cancel_download m item_id).2 = false → (cancel_download m item_id).1 = m) ∧
    (is_cancelled (cancel_download m item_id).1 item_id = true ↔
        ((cancel_download m item_id).2 = true
            ∧ (m.current_tasks.lookup item_id).isSome = true)
          ∨ is_cancelled m item_id = true) ∧
    (∀ pre post item,
        m.queue = pre ++ item :: post →
        (∀ x ∈ pre, (x.id == item_id && cancellableB x.status) = false) →
        (item.id == item_id) = true →
        (item.status = DownloadStatus.downloading
          ∨ item.status = DownloadStatus.processing) →
        (cancel_download m item_id).1.queue =
          pre ++ { item with status := DownloadStatus.cancelled } :: post) := by
  have hfound : (cancel_download m item_id).2 =
      m.queue.any (fun it => it.id == item_id && cancellableB it.status) := rfl
  refine ⟨?_, ?_, ?_, ?_⟩
  · rw [hfound]
    simp [List.any_eq_true, cancellableB]
  · intro hf
    rw [hfound] at hf
    have hall : ∀ x ∈ m.queue, (x.id == item_id && cancellableB x.status) = false := by
      simpa [List.any_eq_false] using hf
    unfold cancel_download
    simp only [hf, Bool.false_eq_true, if_false]
    rw [updateFirst_of_forall_false hall]
  · have htasks : (cancel_download m item_id).1.current_tasks =
        (if m.queue.any (fun it => it.id == item_id && cancellableB it.status) then
          m.current_tasks.map (fun p => if p.1 == item_id then (p.1, true) else p)
        else m.current_tasks) := rfl
    by_cases hf : m.queue.any (fun it => it.id == item_id && cancellableB it.status) = true
    · simp only [is_cancelled, htasks, hfound, hf, if_true, lookup_map_setflag]
      cases hlk : m.current_tasks.lookup item_id with
      | none => simp
      | some b => simp
    · have hf' : m.queue.any (fun it => it.id == item_id && cancellableB it.status) = false :=
        Bool.eq_false_iff.mpr hf
      simp [is_cancelled, htasks, hfound, hf']
  · intro pre post item hq hpre hit hst
    have hcond : (item.id == item_id && cancellableB item.status) = true := by
      rcases hst with h | h <;> simp [cancellableB, hit, h]
    unfold cancel_download
    simp only [hq]
    simp only [updateFirst_append hpre hcond]

/-- C8 witness: cancelling a Downloading item whose task is tracked
raises the flag, and in a two-item queue exactly the matched
Downloading item is set to Cancelled. -/
theorem C8_witness :
    is_cancelled (cancel_download
      { queue := [dlItem], current_tasks := [("d1", false)] } "d1").1 "d1" = true ∧
    (cancel_download { queue := [itemA, dlItem] } "d1").1.queue =
      [itemA, { dlItem with status := DownloadStatus.cancelled }] := by
  constructor
  · exact (C8_cancel_download_spec
      { queue := [dlItem], current_tasks := [("d1", false)] } "d1").2.2.1.mpr
      (Or.inl ⟨by decide, by decide⟩)
  · have h := (C8_cancel_download_spec { queue := [itemA, dlItem] } "d1").2.2.2
      [itemA] [] dlItem rfl (by decide) (by decide) (Or.inl rfl)
    simpa using h

/-! Claim C9: retry_item. -/

/-- C9: retry_item returns true exactly when an item with the given id
has status Error; when it returns false the whole manager state is
unchanged; and on success the first matched Error item is reset to
Waiting with progress 0, a cleared error message and an incremented
retry count, every other item untouched. -/
theorem C9_retry_item_spec (m : QueueManager) (item_id : String) :
    ((retry_item m item_id).2 = true ↔
        ∃ it ∈ m.queue, it.id = item_id ∧ it.status = DownloadStatus.error) ∧
    ((retry_item m item_id).2 = false → (retry_item m item_id).1 = m) ∧
    (∀ pre post item,
        m.queue = pre ++ item :: post →
        (∀ x ∈ pre, (x.id == item_id && x.status == DownloadStatus.error) = false) →
        (item.id == item_id) = true → item.status = DownloadStatus.error →
        (retry_item m item_id).1.queue =
          pre ++ { item with status := DownloadStatus.waiting, progress := 0,
                             error_message := "",
                             retry_count := item.retry_count + 1 } :: post) := by
  have hfound : (retry_item m item_id).2 =
      m.queue.any (fun it => it.id == item_id && it.status == DownloadStatus.error) := rfl
  refine ⟨?_, ?_, ?_⟩
  · rw [hfound]
    simp [List.any_eq_true]
  · intro hf
    rw [hfound] at hf
    have hall : ∀ x ∈ m.queue,
        (x.id == item_id && x.status == DownloadStatus.error) = false := by
      simpa [List.any_eq_false] using hf
    unfold retry_item
    simp only [updateFirst_of_forall_false hall]
  · intro pre post item hq hpre hit hst
    unfold retry_item
    simp only [hq]
    rw [updateFirst_append hpre (by simp [hit, hst])]

/-- C9 witness: retrying a concrete Error item succeeds and resets its
fields. -/
theorem C9_witness :
    (retry_item { queue := [errItem40] } "e1").2 = true ∧
    (retry_item { queue := [errItem40] } "e1").1.queue =
      [{ errItem40 with status := DownloadStatus.waiting, progress := 0,
                        error_message := "",
                        retry_count := errItem40.retry_count + 1 }] := by
  constructor
  · exact (C9_retry_item_spec { queue := [errItem40] } "e1").1.mpr
      ⟨errItem40, by simp, rfl, rfl⟩
  · exact (C9_retry_item_spec { queue := [errItem40] } "e1").2.2 [] [] errItem40 rfl
      (by simp) (by decide) rfl

/-! Claim C10: frame on unknown ids. -/

/-- C10: for an id absent from the queue, update_item_progress and
update_item_status change no item and no manager field (the loop finds
no match; the model is a total function, matching the source which
raises nothing), yet both still invoke every registered callback. -/
theorem C10_unknown_id_frame (m : QueueManager) (item_id : String) (p : ℚ)
    (sp et msg : String) (status : DownloadStatus) (now : Nat)
    (h : ∀ it ∈ m.queue, (it.id == item_id) = false) :
    (update_item_progress m item_id p sp et).1 = m ∧
    (update_item_progress m item_id p sp et).2 = m.callbacks ∧
    (update_item_status m item_id status msg now).1 = m ∧
    (update_item_status m item_id status msg now).2 = m.callbacks := by
  refine ⟨?_, rfl, ?_, rfl⟩
  · unfold update_item_progress
    simp only [updateFirst_of_forall_false h]
  · unfold update_item_status
    simp only [updateFirst_of_forall_false h]

/-- C10 witness: the frame property applied to a one-item queue, an
unknown id and two registered callbacks. -/
theorem C10_witness :
    (update_item_progress { queue := [itemA], callbacks := [0, 1] } "zz" 55 "" "").1 =
      { queue := [itemA], callbacks := [0, 1] } ∧
    (update_item_progress { queue := [itemA], callbacks := [0, 1] } "zz" 55 "" "").2 =
      [0, 1] ∧
    (update_item_status { queue := [itemA], callbacks := [0, 1] } "zz"
        DownloadStatus.done "" 3).1 = { queue := [itemA], callbacks := [0, 1] } ∧
    (update_item_status { queue := [itemA], callbacks := [0, 1] } "zz"
        DownloadStatus.done "" 3).2 = [0, 1] :=
  C10_unknown_id_frame { queue := [itemA], callbacks := [0, 1] } "zz" 55 "" "" ""
    DownloadStatus.done 3 (by decide)

end YTMusicDL
